import Mathlib

/-!
Verification of the LudlPy stage-controller protocol core
(`LudlPy/controller.py`).

The model embeds the protocol handling of `Controller` shallowly:

* Python `str` values are `List Char`; wire bytes are `List Nat`
  (each in `[0, 256)`, ASCII traffic uses `[0, 128)`).
* The serial port is modelled by the queue of bytes the device will
  deliver; a read that would block forever (empty queue, or a line read
  with no newline ever arriving) is `Option.none`.
* Python exceptions (unknown reply character, the length assertion in
  `_format_response`, cast failures, decode errors) are explicit
  `PyError` values carried by the result type.
* Python `float(...)` results are represented exactly as a decimal
  mantissa together with a power-of-ten denominator; `decimalVal` gives
  the rational value.  The decimal literals exercised here ("3.5") are
  exactly representable IEEE doubles, so exact arithmetic agrees with
  Python on them.
-/

namespace LudlPy

/-- A single wire byte (value below 256; ASCII data is below 128). -/
abbrev Byte := Nat

/-- The acknowledge reply token `":A"`. -/
def replyAck : List Char := ":A".data

/-- The negative reply token `":N"`. -/
def replyNeg : List Char := ":N".data

/-- Key `"float"` of the `_cast_functions` dictionary. -/
def floatKey : List Char := "float".data

/-- Key `"int"` of the `_cast_functions` dictionary. -/
def intKey : List Char := "int".data

/-- Key `"string"` of the `_cast_functions` dictionary. -/
def stringKey : List Char := "string".data

/-- Verb text `"RDSTAT "` written by `send_check`. -/
def rdstatVerb : List Char := "RDSTAT ".data

/-- Verb text `"SPEED "` written by `get_speed`/`set_speed`. -/
def speedVerb : List Char := "SPEED ".data

/-- Verb text `"ACCEL "` written by `get_acceleration`/`set_acceleration`. -/
def accelVerb : List Char := "ACCEL ".data

/-- Verb text `"WHERE "` written by `get_absolute_position`. -/
def whereVerb : List Char := "WHERE ".data

/-- Verb text `"MOVE "` written by `move_absolute`. -/
def moveVerb : List Char := "MOVE ".data

/-- The bare verb `"MOVE"`. -/
def moveWord : List Char := "MOVE".data

/-- The `" = "` separator of an `f"{motor_id} = {value}"` item. -/
def eqSeparator : List Char := " = ".data

/-- The `"STATUS"` command text of `check_motor_status`. -/
def statusWord : List Char := "STATUS".data

/-- Python `str.encode("ASCII")`: succeeds iff every character is a
7-bit code point, producing one byte per character. -/
def encodeASCII (s : List Char) : Option (List Byte) :=
  if s.all (fun c => c.toNat < 128) then some (s.map Char.toNat) else none

/-- Python `bytes.decode("ASCII")`: succeeds iff every byte is below
128, producing one character per byte. -/
def decodeASCII (bs : List Byte) : Option (List Char) :=
  if bs.all (fun b => b < 128) then some (bs.map Char.ofNat) else none

/-- `Controller._format_command_string`: append a carriage return and
ASCII-encode. -/
def format_command_string (command : List Char) : Option (List Byte) :=
  encodeASCII (command ++ ['\r'])

/-- A Python value produced by the response caster: the result of
`int(...)`, `float(...)` or `str(...)`.  A float is kept exactly as
`mantissa / 10 ^ exp10` (see `decimalVal`). -/
inductive PyVal : Type where
  | intV : Int → PyVal
  | floatV : (mantissa : Int) → (exp10 : Nat) → PyVal
  | strV : List Char → PyVal
deriving DecidableEq, Repr

/-- Rational value denoted by a `PyVal.floatV mantissa exp10`. -/
def decimalVal (mantissa : Int) (exp10 : Nat) : ℚ :=
  (mantissa : ℚ) / 10 ^ exp10

/-- Python exceptions raised inside `await_response` /
`_format_response`. -/
inductive PyError : Type where
  | unknownReply : List Char → PyError
  | lengthMismatch : PyError
  | castFail : PyError
  | badTypeKey : PyError
  | decodeError : PyError
deriving DecidableEq, Repr

deriving instance DecidableEq for Except

/-- Whitespace stripped by Python's `int(...)`/`float(...)` around a
numeric literal. -/
def isPySpace (c : Char) : Bool :=
  c = ' ' || c = '\t' || c = '\n' || c = '\r' || c = '\x0b' || c = '\x0c'

/-- Strip leading and trailing Python whitespace. -/
def pyStrip (s : List Char) : List Char :=
  ((s.dropWhile isPySpace).reverse.dropWhile isPySpace).reverse

/-- Value of a decimal digit character. -/
def digitVal (c : Char) : Nat := c.toNat - 48

/-- Value of a digit string (assuming all characters are digits). -/
def digitsNat (s : List Char) : Nat :=
  s.foldl (fun acc c => 10 * acc + digitVal c) 0

/-- Nonempty all-digit strings parse to their value; anything else is a
`ValueError`. -/
def decDigits (s : List Char) : Option Nat :=
  if s ≠ [] ∧ s.all Char.isDigit then some (digitsNat s) else none

/-- Python `int(...)` on a string: strip whitespace, optional sign,
then a nonempty run of decimal digits (digit-group underscores and
non-decimal bases are not exercised by this code and not modelled). -/
def pyInt (s : List Char) : Option Int :=
  match pyStrip s with
  | '+' :: rest => (decDigits rest).map (fun n => (n : Int))
  | '-' :: rest => (decDigits rest).map (fun n => -(n : Int))
  | rest => (decDigits rest).map (fun n => (n : Int))

/-- Unsigned decimal float body: `digits`, `digits.digits`, `digits.`
or `.digits` (exponent, `inf` and `nan` forms are not exercised by this
code and not modelled).  Returns the exact value as
`mantissa / 10 ^ exp10`. -/
def pyFloatBody (s : List Char) : Option (Int × Nat) :=
  match s.splitOn '.' with
  | [ds] =>
    if ds ≠ [] ∧ ds.all Char.isDigit then some ((digitsNat ds : Int), 0) else none
  | [ip, fp] =>
    if (ip ≠ [] ∨ fp ≠ []) ∧ ip.all Char.isDigit ∧ fp.all Char.isDigit then
      some (((digitsNat ip * 10 ^ fp.length + digitsNat fp : Nat) : Int), fp.length)
    else none
  | _ => none

/-- Python `float(...)` on a decimal string: strip whitespace, optional
sign, then an unsigned decimal body. -/
def pyFloat (s : List Char) : Option (Int × Nat) :=
  match pyStrip s with
  | '+' :: rest => pyFloatBody rest
  | '-' :: rest => (pyFloatBody rest).map (fun p => (-p.1, p.2))
  | rest => pyFloatBody rest

/-- Lookup in the module-level `_cast_functions` dictionary followed by
the call on one argument string.  An absent key is a `KeyError`; a
failed conversion is a `ValueError`. -/
def cast_function (t : List Char) (arg : List Char) : Except PyError PyVal :=
  if t = floatKey then
    match pyFloat arg with
    | some p => .ok (.floatV p.1 p.2)
    | none => .error .castFail
  else if t = intKey then
    match pyInt arg with
    | some n => .ok (.intV n)
    | none => .error .castFail
  else if t = stringKey then .ok (.strV arg)
  else .error .badTypeKey

/-- The `zip` loop of `Controller._format_response`: cast element-wise,
stopping at the shorter list (as `zip` does), propagating the first
exception. -/
def castList : List (List Char) → List (List Char) → Except PyError (List PyVal)
  | [], _ => .ok []
  | _ :: _, [] => .ok []
  | a :: as, t :: ts =>
    match cast_function t a with
    | .error e => .error e
    | .ok v =>
      match castList as ts with
      | .error e => .error e
      | .ok vs => .ok (v :: vs)

/-- `Controller._format_response`: assert equal lengths, then cast each
argument by its declared type. -/
def format_response (response_arguments response_types : List (List Char)) :
    Except PyError (List PyVal) :=
  if response_arguments.length = response_types.length then
    castList response_arguments response_types
  else .error .lengthMismatch

/-- `serial.Serial.readline` on the pending byte queue: the bytes up to
and including the first newline byte 10; `none` when no newline ever
arrives (the blocking read never returns). -/
def readLineBytes : List Byte → Option (List Byte)
  | [] => none
  | b :: rest =>
    if b = 10 then some [b] else (readLineBytes rest).map (fun l => b :: l)

/-- Result of `Controller.await_response`: either the raw single-character
string of the no-newline mode, a `(success, argument-list)` pair (the
arguments are `str` objects unless the caster replaced them), or a
raised exception. -/
inductive AwaitResult : Type where
  | raw : List Char → AwaitResult
  | ret : Bool → List PyVal → AwaitResult
  | exn : PyError → AwaitResult
deriving DecidableEq, Repr

/-- `Controller.await_response` on the device's pending byte queue.
`none` models the unbounded blocking wait never returning (empty queue,
or line mode with no newline forthcoming).  The `[1:-1]` slice is
`drop 1` followed by `dropLast`, and the Python truthiness test
`executed_successfully and response_types` makes an empty (or absent)
type sequence skip `_format_response` entirely; the slice, applied in
the source once after classification, is distributed over the two reply
branches here without changing its meaning. -/
def await_response (response_types : List (List Char))
    (response_has_newline : Bool) (buf : List Byte) : Option AwaitResult :=
  match buf with
  | [] => none
  | b :: rest =>
    if response_has_newline then
      match readLineBytes (b :: rest) with
      | none => none
      | some lineBytes =>
        match decodeASCII lineBytes with
        | none => some (.exn .decodeError)
        | some response =>
          let response_array := response.splitOn ' '
          let reply_character := response_array.headD []
          if reply_character = replyAck then
            let args := (response_array.drop 1).dropLast
            if response_types.isEmpty then some (.ret true (args.map .strV))
            else
              match format_response args response_types with
              | .ok vals => some (.ret true vals)
              | .error e => some (.exn e)
          else if reply_character = replyNeg then
            let args := (response_array.drop 1).dropLast
            some (.ret false (args.map .strV))
          else some (.exn (.unknownReply reply_character))
    else
      match decodeASCII [b] with
      | none => some (.exn .decodeError)
      | some response => some (.raw response)

/-- Bytes `Controller.send_check` writes: `f"RDSTAT {motor_id}"`
encoded with a trailing carriage return. -/
def send_check_write (motor_id : List Char) : Option (List Byte) :=
  format_command_string (rdstatVerb ++ motor_id)

/-- Read half of `Controller.send_check`: `await_response()` with no
requested types. -/
def send_check_read (buf : List Byte) : Option AwaitResult :=
  await_response [] true buf

/-- Response types requested by `Controller.get_speed`:
`["int"] * len(motor_ids)`. -/
def get_speed_response_types (motor_ids : List (List Char)) : List (List Char) :=
  List.replicate motor_ids.length intKey

/-- Bytes `Controller.get_speed` writes. -/
def get_speed_write (motor_ids : List (List Char)) : Option (List Byte) :=
  format_command_string (speedVerb ++ List.intercalate [' '] motor_ids)

/-- Read half of `Controller.get_speed`. -/
def get_speed_read (motor_ids : List (List Char)) (buf : List Byte) :
    Option AwaitResult :=
  await_response (get_speed_response_types motor_ids) true buf

/-- Bytes `Controller.get_acceleration` writes. -/
def get_acceleration_write (motor_ids : List (List Char)) : Option (List Byte) :=
  format_command_string (accelVerb ++ List.intercalate [' '] motor_ids)

/-- Read half of `Controller.get_acceleration` (same
`["int"] * len(motor_ids)` signature as `get_speed`). -/
def get_acceleration_read (motor_ids : List (List Char)) (buf : List Byte) :
    Option AwaitResult :=
  await_response (List.replicate motor_ids.length intKey) true buf

/-- Bytes `Controller.get_absolute_position` writes. -/
def get_absolute_position_write (motor_ids : List (List Char)) : Option (List Byte) :=
  format_command_string (whereVerb ++ List.intercalate [' '] motor_ids)

/-- Read half of `Controller.get_absolute_position`. -/
def get_absolute_position_read (motor_ids : List (List Char)) (buf : List Byte) :
    Option AwaitResult :=
  await_response (List.replicate motor_ids.length intKey) true buf

/-- One `f"{motor_id} = {value}"` item of the `motor_parameters` list
comprehensions (Python renders the `int` in decimal). -/
def render_assignment (motor_id : List Char) (value : Int) : List Char :=
  motor_id ++ eqSeparator ++ (toString value).data

/-- Bytes `Controller.move_absolute` writes:
`f"MOVE {' '.join(motor_parameters)}"` with a trailing carriage
return. -/
def move_absolute_write (pairs : List (List Char × Int)) : Option (List Byte) :=
  format_command_string
    (moveVerb ++ List.intercalate [' '] (pairs.map (fun p => render_assignment p.1 p.2)))

/-- A command-catalog argument item: `"<id> = <value>"` when a value is
present (the set/move commands), bare `"<id>"` otherwise (the read-only
queries). -/
def render_pair : List Char × Option (List Char) → List Char
  | (motor_id, some v) => motor_id ++ eqSeparator ++ v
  | (motor_id, none) => motor_id

/-- Text of a catalog command before encoding: the verb, a space, and
the space-joined argument items (`f"{verb} {' '.join(items)}"`). -/
def command_text (verb : List Char) (pairs : List (List Char × Option (List Char))) :
    List Char :=
  verb ++ [' '] ++ List.intercalate [' '] (pairs.map render_pair)

/-- Bytes `Controller.check_motor_status` writes:
`_format_command_string("STATUS")`. -/
def check_motor_status_write : Option (List Byte) :=
  format_command_string statusWord

/-- The concrete wire image of the STATUS command. -/
def status_command : List Byte :=
  statusWord.map Char.toNat ++ [13]

/-- Read half of `Controller.check_motor_status`:
`await_response(response_has_newline=False)`. -/
def check_motor_status_read (buf : List Byte) : Option AwaitResult :=
  await_response [] false buf

/-- Outcome of `Controller.await_motors_ready`: a normal return, an
endless block, or a propagated exception. -/
inductive PollOutcome : Type where
  | returns : PollOutcome
  | blocks : PollOutcome
  | raises : PyError → PollOutcome
deriving DecidableEq, Repr

/-- `Controller.await_motors_ready` against a device that answers the
k-th STATUS poll with the k-th byte queue of `replies`: each loop
iteration writes one STATUS command and reads one status response,
returning as soon as the response equals the one-character string `"N"`
(any other value, tuple results included, keeps polling).  The first
component lists the bytes written, one entry per issued command. -/
def await_motors_ready : List (List Byte) → List (List Byte) × PollOutcome
  | [] => ([status_command], .blocks)
  | buf :: rest =>
    match check_motor_status_read buf with
    | none => ([status_command], .blocks)
    | some (.exn e) => ([status_command], .raises e)
    | some r =>
      if r = .raw ['N'] then ([status_command], .returns)
      else
        let next := await_motors_ready rest
        (status_command :: next.1, next.2)

/-! Helper lemmas about the embedding. -/

/-- Characters with equal code points are equal. -/
lemma char_toNat_injective {c d : Char} (h : c.toNat = d.toNat) : c = d :=
  Char.eq_of_val_eq (UInt32.eq_of_toBitVec_eq (BitVec.toNat_injective h))

/-- A line whose interior holds no newline byte is read back whole. -/
lemma readLineBytes_concat (l : List Byte) (h : ∀ b ∈ l, b ≠ 10) :
    readLineBytes (l ++ [10]) = some (l ++ [10]) := by
  induction l with
  | nil => rfl
  | cons b t ih =>
    have hb : b ≠ 10 := h b (List.mem_cons_self b t)
    have ht : ∀ x ∈ t, x ≠ 10 := fun x hx => h x (List.mem_cons_of_mem b hx)
    simp [readLineBytes, hb, ih ht]

/-- Decoding inverts encoding on 7-bit text. -/
lemma decodeASCII_map_toNat (l : List Char) (h : ∀ c ∈ l, c.toNat < 128) :
    decodeASCII (l.map Char.toNat) = some l := by
  have hall : (l.map Char.toNat).all (fun b => b < 128) = true := by
    rw [List.all_eq_true]
    intro b hb
    obtain ⟨c, hc, rfl⟩ := List.mem_map.mp hb
    simpa using h c hc
  simp [decodeASCII, hall, List.map_map, Function.comp_def, Char.ofNat_toNat]

/-- Evaluation of the line mode of `await_response` once the blocking
read has delivered a decodable line. -/
lemma await_response_line_eq (types : List (List Char)) (buf lineBytes : List Byte)
    (line : List Char) (h1 : readLineBytes buf = some lineBytes)
    (h2 : decodeASCII lineBytes = some line) :
    await_response types true buf =
      (if (line.splitOn ' ').headD [] = replyAck then
        if types.isEmpty then
          some (.ret true ((((line.splitOn ' ').drop 1).dropLast).map .strV))
        else
          match format_response (((line.splitOn ' ').drop 1).dropLast) types with
          | .ok vals => some (.ret true vals)
          | .error e => some (.exn e)
      else if (line.splitOn ' ').headD [] = replyNeg then
        some (.ret false ((((line.splitOn ' ').drop 1).dropLast).map .strV))
      else some (.exn (.unknownReply ((line.splitOn ' ').headD [])))) := by
  cases buf with
  | nil => simp [readLineBytes] at h1
  | cons b rest => simp [await_response, h1, h2]

/-- Appending one more chunk behind a nonempty intercalation appends
one separator and the chunk. -/
lemma intercalate_concat {α : Type} (s l : List α) (ls : List (List α)) (h : ls ≠ []) :
    List.intercalate s (ls ++ [l]) = List.intercalate s ls ++ s ++ l := by
  induction ls with
  | nil => exact absurd rfl h
  | cons hd tl ih =>
    cases tl with
    | nil => simp [List.intercalate, List.intersperse]
    | cons hd2 tl2 =>
      have step := ih (by simp)
      simp only [List.cons_append, List.intercalate, List.intersperse_cons_cons,
        List.flatten_cons] at step ⊢
      rw [step]
      simp [List.append_assoc]

/-- A member of an intercalation lies in a chunk or in the separator. -/
lemma mem_intercalate {α : Type} {c : α} {s : List α} {ls : List (List α)}
    (h : c ∈ List.intercalate s ls) : (∃ l ∈ ls, c ∈ l) ∨ c ∈ s := by
  induction ls with
  | nil => simp [List.intercalate] at h
  | cons hd tl ih =>
    cases tl with
    | nil =>
      have hsingle : List.intercalate s [hd] = hd := by simp [List.intercalate]
      rw [hsingle] at h
      exact Or.inl ⟨hd, by simp, h⟩
    | cons hd2 tl2 =>
      have hexp : List.intercalate s (hd :: hd2 :: tl2)
          = hd ++ s ++ List.intercalate s (hd2 :: tl2) := by
        simp [List.intercalate, List.intersperse_cons_cons, List.flatten_cons,
          List.append_assoc]
      rw [hexp] at h
      rcases List.mem_append.mp h with hin | hin
      · rcases List.mem_append.mp hin with hc | hc
        · exact Or.inl ⟨hd, by simp, hc⟩
        · exact Or.inr hc
      · rcases ih hin with ⟨l, hl, hcl⟩ | hs
        · exact Or.inl ⟨l, by simp [hl], hcl⟩
        · exact Or.inr hs

/-! Concrete traffic used by the scenario claims. -/

/-- Command text `"SPEED X = 10000"` of the round-trip scenario. -/
def speedCommandChars : List Char := "SPEED X = 10000".data

/-- Characters of the expected wire image `b"SPEED X = 10000\r"`. -/
def speedWireChars : List Char := "SPEED X = 10000\r".data

/-- Bytes of the expected wire image `b"SPEED X = 10000\r"`. -/
def speedWireBytes : List Byte := speedWireChars.map Char.toNat

/-- The simulated response line `":A 10000\n"` of the round-trip claim. -/
def ackSpeedLine : List Char := ":A 10000\n".data

/-- Bytes of `":A 10000\n"`. -/
def ackSpeedBuf : List Byte := ackSpeedLine.map Char.toNat

/-- The space-padded response line `":A 10000 \n"`. -/
def ackSpeedPaddedLine : List Char := ":A 10000 \n".data

/-- Bytes of `":A 10000 \n"`. -/
def ackSpeedPaddedBuf : List Byte := ackSpeedPaddedLine.map Char.toNat

/-- The response line `":A\n"`. -/
def ackBareLine : List Char := ":A\n".data

/-- Bytes of `":A\n"`. -/
def ackBareBuf : List Byte := ackBareLine.map Char.toNat

/-- The response line `":N\n"`. -/
def negBareLine : List Char := ":N\n".data

/-- Bytes of `":N\n"`. -/
def negBareBuf : List Byte := negBareLine.map Char.toNat

/-- The response line `":A \n"` (space before the newline). -/
def ackPaddedLine : List Char := ":A \n".data

/-- Bytes of `":A \n"`. -/
def ackPaddedBuf : List Byte := ackPaddedLine.map Char.toNat

/-- The response line `":N \n"` (space before the newline). -/
def negPaddedLine : List Char := ":N \n".data

/-- Bytes of `":N \n"`. -/
def negPaddedBuf : List Byte := negPaddedLine.map Char.toNat

/-- The motor id `"X"`. -/
def motorXChars : List Char := "X".data

/-- Characters of the wire image `b"RDSTAT X\r"`. -/
def rdstatXWireChars : List Char := "RDSTAT X\r".data

/-- Bytes of `b"RDSTAT X\r"`. -/
def rdstatXWireBytes : List Byte := rdstatXWireChars.map Char.toNat

/-- The response line `":A x\n"` (one token, no space before the newline). -/
def ackSingleLine : List Char := ":A x\n".data

/-- Bytes of `":A x\n"`. -/
def ackSingleBuf : List Byte := ackSingleLine.map Char.toNat

/-- The response line `":N 5 \n"`. -/
def negArgsLine : List Char := ":N 5 \n".data

/-- Bytes of `":N 5 \n"`. -/
def negArgsBuf : List Byte := negArgsLine.map Char.toNat

/-- The response line `":A 1 2 \n"`. -/
def ackTwoArgsLine : List Char := ":A 1 2 \n".data

/-- Bytes of `":A 1 2 \n"`. -/
def ackTwoArgsBuf : List Byte := ackTwoArgsLine.map Char.toNat

/-- The response line `":Q 1\n"`, carrying an unknown reply token. -/
def unknownReplyLine : List Char := ":Q 1\n".data

/-- Bytes of `":Q 1\n"`. -/
def unknownReplyBuf : List Byte := unknownReplyLine.map Char.toNat

/-- The unknown leading token `":Q"` of `unknownReplyLine`. -/
def unknownReplyToken : List Char := ":Q".data

/-! Claim theorems. -/

/-- C1 (counterexample): encoding `"SPEED X = 10000"` does yield
`b"SPEED X = 10000\r"`, but parsing the simulated response
`":A 10000\n"` with requested types `["int"]` does not return
`(True, [10000])`: Python's `split(" ")` leaves the newline glued to
the token `"10000\n"`, the `[1:-1]` slice then removes that token as
the presumed newline element, and `_format_response` fails its length
assertion on zero arguments against one type. -/
theorem speed_roundtrip_counterexample :
    format_command_string speedCommandChars = some speedWireBytes
    ∧ await_response [intKey] true ackSpeedBuf = some (.exn .lengthMismatch)
    ∧ await_response [intKey] true ackSpeedBuf ≠ some (.ret true [.intV 10000]) := by
  refine ⟨by decide, by decide, by decide⟩

/-- C1 (amended): encoding `"SPEED X = 10000"` yields exactly
`b"SPEED X = 10000\r"`, and parsing the simulated response
`":A 10000 \n"` — with the space before the newline that the parser's
`[1:-1]` slice presumes — with requested types `["int"]` returns
`(True, [10000])`. -/
theorem speed_roundtrip_amended :
    format_command_string speedCommandChars = some speedWireBytes
    ∧ await_response [intKey] true ackSpeedPaddedBuf = some (.ret true [.intV 10000]) := by
  refine ⟨by decide, by decide⟩

/-- C4 (counterexample): `send_check("X")` on a device replying
`":A\n"` does not return `(True, [])`, and on `":N\n"` does not return
`(False, [])`: `":A\n".split(" ")` is the single token `":A\n"`, which
matches neither `":A"` nor `":N"`, so both calls raise the unknown
reply character exception. -/
theorem send_check_counterexample :
    send_check_read ackBareBuf = some (.exn (.unknownReply ackBareLine))
    ∧ send_check_read negBareBuf = some (.exn (.unknownReply negBareLine))
    ∧ send_check_read ackBareBuf ≠ some (.ret true [])
    ∧ send_check_read negBareBuf ≠ some (.ret false []) := by
  refine ⟨by decide, by decide, by decide, by decide⟩

/-- C4 (amended): `send_check("X")` writes `b"RDSTAT X\r"`, and on a
device replying `":A \n"` (space before the newline) returns
`(True, [])`, while a reply `":N \n"` returns `(False, [])`. -/
theorem send_check_amended :
    send_check_write motorXChars = some rdstatXWireBytes
    ∧ send_check_read ackPaddedBuf = some (.ret true [])
    ∧ send_check_read negPaddedBuf = some (.ret false []) := by
  refine ⟨by decide, by decide, by decide⟩

/-- C5: `_format_response` casts element-wise by declared type:
`["10", "20"]` against `["int", "int"]` gives the integers
`[10, 20]`; `["3.5"]` against `["float"]` gives the float `3.5`
(represented exactly, with rational value `7/2`); the `"string"` cast
is the identity on every argument; and whenever the argument count
differs from the type count the call fails on its length assertion. -/
theorem format_response_casting :
    format_response [['1', '0'], ['2', '0']] [intKey, intKey] = .ok [.intV 10, .intV 20]
    ∧ format_response [['3', '.', '5']] [floatKey] = .ok [.floatV 35 1]
    ∧ decimalVal 35 1 = 7 / 2
    ∧ (∀ s : List Char, cast_function stringKey s = .ok (.strV s))
    ∧ ∀ args types : List (List Char), args.length ≠ types.length →
        format_response args types = .error .lengthMismatch := by
  refine ⟨by decide, by decide, ?_, fun s => rfl, ?_⟩
  · norm_num [decimalVal]
  · intro args types hne
    simp [format_response, hne]

/-- C5 (witness): the `"string"` cast leaves `"ab"` unchanged, and a
one-argument list against an empty type list fails. -/
theorem format_response_casting_witness :
    cast_function stringKey ['a', 'b'] = .ok (.strV ['a', 'b'])
    ∧ format_response [['1', '0']] [] = .error .lengthMismatch :=
  ⟨format_response_casting.2.2.2.1 ['a', 'b'],
    format_response_casting.2.2.2.2 [['1', '0']] [] (by decide)⟩

/-- C2: for every line-mode response that the blocking read delivers
and ASCII-decodes, `await_response` splits the line on single spaces
and inspects the first token: a first token exactly `":A"` reports
`success = True` (with the cast arguments when types were requested and
the caster succeeds), a first token exactly `":N"` reports
`success = False`, and any other first token raises the unknown reply
character exception, which propagates to the caller. -/
theorem reply_token_classification (types : List (List Char))
    (buf lineBytes : List Byte) (line : List Char)
    (h1 : readLineBytes buf = some lineBytes)
    (h2 : decodeASCII lineBytes = some line) :
    ((line.splitOn ' ').headD [] = replyAck → types = [] →
      await_response types true buf
        = some (.ret true ((((line.splitOn ' ').drop 1).dropLast).map .strV)))
    ∧ ((line.splitOn ' ').headD [] = replyAck → ∀ vals : List PyVal, types ≠ [] →
        format_response (((line.splitOn ' ').drop 1).dropLast) types = .ok vals →
        await_response types true buf = some (.ret true vals))
    ∧ ((line.splitOn ' ').headD [] = replyNeg →
        await_response types true buf
          = some (.ret false ((((line.splitOn ' ').drop 1).dropLast).map .strV)))
    ∧ ((line.splitOn ' ').headD [] ≠ replyAck →
        (line.splitOn ' ').headD [] ≠ replyNeg →
        await_response types true buf
          = some (.exn (.unknownReply ((line.splitOn ' ').headD [])))) := by
  rw [await_response_line_eq types buf lineBytes line h1 h2]
  have hAN : replyNeg ≠ replyAck := by decide
  refine ⟨?_, ?_, ?_, ?_⟩
  · intro hA hty
    subst hty
    rw [if_pos hA]
    rfl
  · intro hA vals hty hfmt
    cases types with
    | nil => exact absurd rfl hty
    | cons t ts =>
      rw [if_pos hA]
      show (match format_response (((line.splitOn ' ').drop 1).dropLast) (t :: ts) with
        | .ok vals => some (AwaitResult.ret true vals)
        | .error e => some (.exn e)) = some (.ret true vals)
      rw [hfmt]
  · intro hN
    rw [hN, if_neg hAN, if_pos rfl]
  · intro hA hN
    rw [if_neg hA, if_neg hN]

/-- C2 (witness): the line `":Q 1\n"` leads with the token `":Q"`,
which is neither `":A"` nor `":N"`, so the call raises the unknown
reply character exception. -/
theorem reply_token_classification_witness :
    await_response [intKey] true unknownReplyBuf
      = some (.exn (.unknownReply unknownReplyToken)) :=
  (reply_token_classification [intKey] unknownReplyBuf unknownReplyBuf
    unknownReplyLine (by decide) (by decide)).2.2.2 (by decide) (by decide)

/-- C6: a device-reported failure is not an exception path: whenever
the delivered line leads with the token `":N"`, `await_response`
returns normally with `success = False` and the sliced argument tokens
as plain strings, bypassing `_format_response` even when the caller
supplied requested response types. -/
theorem negative_reply_returns_uncast (types : List (List Char))
    (buf lineBytes : List Byte) (line : List Char)
    (h1 : readLineBytes buf = some lineBytes)
    (h2 : decodeASCII lineBytes = some line)
    (h3 : (line.splitOn ' ').headD [] = replyNeg) :
    await_response types true buf
      = some (.ret false ((((line.splitOn ' ').drop 1).dropLast).map .strV)) := by
  rw [await_response_line_eq types buf lineBytes line h1 h2, h3]
  have hAN : replyNeg ≠ replyAck := by decide
  rw [if_neg hAN, if_pos rfl]

/-- C6 (witness): the reply `":N 5 \n"` with requested types
`["int"]` returns `(False, ["5"])` — the argument stays an uncast
string. -/
theorem negative_reply_returns_uncast_witness :
    await_response [intKey] true negArgsBuf = some (.ret false [.strV ['5']]) :=
  negative_reply_returns_uncast [intKey] negArgsBuf negArgsBuf negArgsLine
    (by decide) (by decide) (by decide)

/-- C9: with `response_has_newline=False` (the STATUS busy-poll path),
`await_response` reads exactly one byte — the result depends only on
the first queued byte — and returns the single decoded ASCII character
as a plain string (`AwaitResult.raw`), with no reply-token
classification and no `(success, argument-list)` pair, whatever types
were requested; `check_motor_status` returns that same raw string. -/
theorem single_char_mode_reads_one_byte (types : List (List Char)) (b : Byte)
    (rest : List Byte) (h : b < 128) :
    await_response types false (b :: rest) = some (.raw [Char.ofNat b])
    ∧ check_motor_status_read (b :: rest) = some (.raw [Char.ofNat b]) := by
  constructor <;> simp [check_motor_status_read, await_response, decodeASCII, h]

/-- C9 (witness): on the queue `[66, 67, 10]` only the leading byte 66
is consumed, giving the one-character string `"B"`. -/
theorem single_char_mode_reads_one_byte_witness :
    await_response [intKey] false (66 :: [67, 10]) = some (.raw [Char.ofNat 66])
    ∧ check_motor_status_read (66 :: [67, 10]) = some (.raw [Char.ofNat 66]) :=
  single_char_mode_reads_one_byte [intKey] 66 [67, 10] (by decide)

/-- C10: with an empty `motor_ids` sequence, `get_speed`,
`get_acceleration` and `get_absolute_position` pass the empty type list
`["int"] * 0 = []` to `await_response`, whose truthiness test treats it
as no casting requested: on any successful `":A"` line the sliced
argument tokens come back as plain strings — whatever their number —
without ever reaching `_format_response`, so no length check against
the type list occurs. -/
theorem empty_motor_ids_skip_cast (buf lineBytes : List Byte) (line : List Char)
    (h1 : readLineBytes buf = some lineBytes)
    (h2 : decodeASCII lineBytes = some line)
    (h3 : (line.splitOn ' ').headD [] = replyAck) :
    get_speed_response_types [] = []
    ∧ get_speed_read [] buf
        = some (.ret true ((((line.splitOn ' ').drop 1).dropLast).map .strV))
    ∧ get_acceleration_read [] buf = get_speed_read [] buf
    ∧ get_absolute_position_read [] buf = get_speed_read [] buf := by
  refine ⟨rfl, ?_, rfl, rfl⟩
  show await_response [] true buf = _
  rw [await_response_line_eq [] buf lineBytes line h1 h2, h3, if_pos rfl]
  rfl

/-- C10 (witness): the successful line `":A 1 2 \n"` against zero
requested types returns both argument tokens as uncast strings, with no
length-mismatch failure despite `2 ≠ 0`. -/
theorem empty_motor_ids_skip_cast_witness :
    get_speed_response_types [] = []
    ∧ get_speed_read [] ackTwoArgsBuf = some (.ret true [.strV ['1'], .strV ['2']])
    ∧ get_acceleration_read [] ackTwoArgsBuf = get_speed_read [] ackTwoArgsBuf
    ∧ get_absolute_position_read [] ackTwoArgsBuf = get_speed_read [] ackTwoArgsBuf :=
  empty_motor_ids_skip_cast ackTwoArgsBuf ackTwoArgsBuf ackTwoArgsLine
    (by decide) (by decide) (by decide)

/-- C3 (counterexample): the well-formed line `":A x\n"` — `":A "`
followed by n = 1 token and the terminating newline — yields
`success = True` but an argument list of length 0, not 1: the newline
stays glued to the token `"x\n"`, which the `[1:-1]` slice then strips
as the presumed newline element. -/
theorem ack_argument_count_counterexample :
    await_response [] true ackSingleBuf = some (.ret true [])
    ∧ ([] : List PyVal).length = 0
    ∧ ([] : List PyVal).length ≠ 1 := by
  refine ⟨by decide, rfl, by decide⟩

/-- C3 (amended): for every n ≥ 0 and every response line of the form
`":A"` followed by n tokens, every token (the last one included)
followed by a single space, and then the terminating `"\n"` — that is,
`":A t1 t2 ... tn \n"`, the framing whose final space-split element is
the bare newline that the `[1:-1]` slice presumes — `await_response`
with no requested types returns `success = True` together with an
argument list of length exactly n.  (Without the space before the
newline the list has length n - 1 for n ≥ 1, as the counterexample
shows.) -/
theorem ack_argument_count_amended (tokens : List (List Char))
    (h : ∀ t ∈ tokens, ∀ c ∈ t, c ≠ ' ' ∧ c ≠ '\n' ∧ c.toNat < 128) :
    await_response [] true
        ((List.intercalate [' '] (replyAck :: (tokens ++ [['\n']]))).map Char.toNat)
      = some (.ret true (tokens.map .strV))
    ∧ (tokens.map PyVal.strV).length = tokens.length := by
  refine ⟨?_, by simp⟩
  have hsplit : ((List.intercalate [' '] (replyAck :: (tokens ++ [['\n']]))).splitOn ' ')
      = replyAck :: (tokens ++ [['\n']]) := by
    refine List.splitOn_intercalate _ ' ' ?_ (by simp)
    intro l hl
    rcases List.mem_cons.mp hl with rfl | hl2
    · decide
    · rcases List.mem_append.mp hl2 with hl3 | hl3
      · intro hsp
        exact (h l hl3 ' ' hsp).1 rfl
      · have hnl : l = ['\n'] := by simpa using hl3
        subst hnl
        decide
  have hline_ascii : ∀ c ∈ List.intercalate [' '] (replyAck :: (tokens ++ [['\n']])),
      c.toNat < 128 := by
    intro c hc
    rcases mem_intercalate hc with ⟨l, hl, hcl⟩ | hcs
    · rcases List.mem_cons.mp hl with rfl | hl2
      · rw [show replyAck = [':', 'A'] from rfl] at hcl
        fin_cases hcl <;> decide
      · rcases List.mem_append.mp hl2 with hl3 | hl3
        · exact (h l hl3 c hcl).2.2
        · have hnl : l = ['\n'] := by simpa using hl3
          subst hnl
          have : c = '\n' := by simpa using hcl
          subst this
          decide
    · have : c = ' ' := by simpa using hcs
      subst this
      decide
  have hdecode : decodeASCII ((List.intercalate [' ']
        (replyAck :: (tokens ++ [['\n']]))).map Char.toNat)
      = some (List.intercalate [' '] (replyAck :: (tokens ++ [['\n']]))) :=
    decodeASCII_map_toNat _ hline_ascii
  have hfront : List.intercalate [' '] (replyAck :: (tokens ++ [['\n']]))
      = (List.intercalate [' '] (replyAck :: tokens) ++ [' ']) ++ ['\n'] := by
    have hp : (replyAck :: (tokens ++ [['\n']])) = ((replyAck :: tokens) ++ [['\n']]) := by
      simp
    rw [hp, intercalate_concat [' '] ['\n'] (replyAck :: tokens) (by simp)]
  have hfront_nonl : ∀ c ∈ List.intercalate [' '] (replyAck :: tokens) ++ [' '],
      c ≠ '\n' := by
    intro c hc
    rcases List.mem_append.mp hc with hc1 | hc2
    · rcases mem_intercalate hc1 with ⟨l, hl, hcl⟩ | hcs
      · rcases List.mem_cons.mp hl with rfl | hl2
        · rw [show replyAck = [':', 'A'] from rfl] at hcl
          fin_cases hcl <;> decide
        · exact (h l hl2 c hcl).2.1
      · have : c = ' ' := by simpa using hcs
        subst this
        decide
    · have : c = ' ' := by simpa using hc2
      subst this
      decide
  have hread : readLineBytes ((List.intercalate [' ']
        (replyAck :: (tokens ++ [['\n']]))).map Char.toNat)
      = some ((List.intercalate [' '] (replyAck :: (tokens ++ [['\n']]))).map Char.toNat) := by
    rw [hfront, List.map_append]
    have h10 : ∀ b ∈ (List.intercalate [' '] (replyAck :: tokens) ++ [' ']).map Char.toNat,
        b ≠ 10 := by
      intro b hb
      obtain ⟨c, hc, rfl⟩ := List.mem_map.mp hb
      intro heq
      exact hfront_nonl c hc (char_toNat_injective (by simpa using heq))
    exact readLineBytes_concat _ h10
  have hc1 : (replyAck :: (tokens ++ [['\n']])).headD [] = replyAck := rfl
  have hc2 : (List.isEmpty ([] : List (List Char))) = true := rfl
  rw [await_response_line_eq [] _ _ _ hread hdecode, hsplit, if_pos hc1, if_pos hc2,
    show (List.drop 1 (replyAck :: (tokens ++ [['\n']]))).dropLast = tokens by simp]

/-- C3 (amended, witness): the line `":A 42 7 \n"` parses to
`success = True` with the two string arguments `["42", "7"]`. -/
theorem ack_argument_count_amended_witness :
    await_response [] true
        ((List.intercalate [' '] (replyAck :: ([['4', '2'], ['7']] ++ [['\n']]))).map Char.toNat)
      = some (.ret true ([['4', '2'], ['7']].map .strV))
    ∧ ([['4', '2'], ['7']].map PyVal.strV).length = [['4', '2'], ['7']].length :=
  ack_argument_count_amended [['4', '2'], ['7']] (by decide)

/-- C7: `await_motors_ready` repeatedly issues the STATUS command and
inspects the single returned character, polling again while that
character is not `"N"` and returning the instant `"N"` is observed: for
every run of non-`"N"` status bytes followed by `"N"` (byte 78) it
writes exactly one STATUS command per status byte — for the sequence
`"B", "B", "N"` (bytes 66, 66, 78) exactly three. -/
theorem await_motors_ready_poll_count (pre : List Byte)
    (h : ∀ b ∈ pre, b < 128 ∧ Char.ofNat b ≠ 'N') :
    await_motors_ready ((pre ++ [78]).map (fun b => [b]))
      = (List.replicate (pre.length + 1) status_command, .returns)
    ∧ check_motor_status_write = some status_command := by
  suffices hgen : ∀ l : List Byte, (∀ b ∈ l, b < 128 ∧ Char.ofNat b ≠ 'N') →
      await_motors_ready ((l ++ [78]).map (fun b => [b]))
        = (List.replicate (l.length + 1) status_command, .returns) by
    exact ⟨hgen pre h, by decide⟩
  intro l
  induction l with
  | nil => intro _; decide
  | cons b t ih =>
    intro hall
    obtain ⟨hb1, hb2⟩ := hall b (List.mem_cons_self b t)
    have ht : ∀ x ∈ t, x < 128 ∧ Char.ofNat x ≠ 'N' :=
      fun x hx => hall x (List.mem_cons_of_mem b hx)
    have hread : check_motor_status_read [b] = some (.raw [Char.ofNat b]) := by
      simp [check_motor_status_read, await_response, decodeASCII, hb1]
    have hne : AwaitResult.raw [Char.ofNat b] ≠ .raw ['N'] := by
      simp [hb2]
    simp only [List.cons_append, List.map_cons, await_motors_ready, hread, if_neg hne]
    have ihx := ih ht
    simp only [List.map_append, List.map_cons, List.map_nil] at ihx
    simp [ihx, List.replicate_succ]

/-- C7 (witness): the status-byte sequence 66, 66, 78 (`"B"`, `"B"`,
`"N"`) causes exactly three STATUS commands to be written before
`await_motors_ready` returns. -/
theorem await_motors_ready_poll_count_witness :
    await_motors_ready [[66], [66], [78]]
      = (List.replicate (2 + 1) status_command, .returns)
    ∧ check_motor_status_write = some status_command :=
  await_motors_ready_poll_count [66, 66] (by decide)

/-- C8: the encoder is ASCII plus one trailing carriage return and
nothing else: for every command text — a verb, a space, and the k
argument items `"<id> = <value>"` (value present) or bare `"<id>"`
joined by single spaces — `_format_command_string` produces exactly the
ASCII bytes of the text followed by the single byte 13, and
`move_absolute` builds its wire bytes as precisely such a command text
with verb `MOVE`. -/
theorem command_encoding (verb : List Char)
    (pairs : List (List Char × Option (List Char)))
    (h : ∀ c ∈ command_text verb pairs, c.toNat < 128) :
    format_command_string (command_text verb pairs)
      = some ((command_text verb pairs).map Char.toNat ++ [13])
    ∧ ∀ ps : List (List Char × Int),
        move_absolute_write ps
          = format_command_string
              (command_text moveWord (ps.map (fun p => (p.1, some ((toString p.2).data))))) := by
  constructor
  · have hall : (command_text verb pairs ++ ['\r']).all (fun c => c.toNat < 128) = true := by
      rw [List.all_append, Bool.and_eq_true]
      refine And.intro ?_ (by decide)
      rw [List.all_eq_true]
      intro c hc
      simpa using h c hc
    simp [format_command_string, encodeASCII, hall]
  · intro ps
    have hmv : moveVerb = moveWord ++ [' '] := by decide
    simp only [move_absolute_write, command_text, hmv, List.map_map, Function.comp_def,
      render_pair, render_assignment, List.append_assoc]

/-- The single argument pair `("X", "0")` of the witness command. -/
def xZeroPair : List Char × Option (List Char) := (['X'], some ['0'])

/-- C8 (witness): the command text `"MOVE X = 0"` encodes to its ASCII
bytes followed by the carriage-return byte 13. -/
theorem command_encoding_witness :
    format_command_string (command_text moveWord [xZeroPair])
      = some ((command_text moveWord [xZeroPair]).map Char.toNat ++ [13])
    ∧ ∀ ps : List (List Char × Int),
        move_absolute_write ps
          = format_command_string
              (command_text moveWord (ps.map (fun p => (p.1, some ((toString p.2).data))))) :=
  command_encoding moveWord [xZeroPair] (by decide)

end LudlPy
